import Mathlib

/-!
Verification of the netwatch agent's transport and event-coordination core
(src/agent-rust) against its natural-language specification.

The Lean definitions below are shallow embeddings of the Rust source:
pure computations become Lean functions; stateful service code becomes
explicit state passing; machine integers (u64) are Nat with wrapping
arithmetic made explicit; fallible operations return Except/Option; the
results of OS-level effects (spawning a process, the outcome of a network
send, the active-window query, clock reads) are passed in as parameters.

The socket client implementation (src/socket/client.rs, declared by
src/socket/mod.rs) and the BlockingService implementation are not present
under src/; where a claim depends on them the corresponding definition is
modelled from the spec and carries a doc comment saying so.
-/

namespace NetWatch

/-- Connection lifecycle states (spec section 4.2; the state enum itself lives
in the absent socket/client.rs, its values are fixed by the spec). -/
inductive ConnectionState where
  | Disconnected
  | Connecting
  | Connected
  | Authenticated
  | Reconnecting
  | Closed
deriving DecidableEq, Repr

/-- Error taxonomy of the transport layer (spec section 7). -/
inductive SocketError where
  | NetworkError
  | NotConnected
deriving DecidableEq, Repr

/-- Modelled from the spec: SocketClient.connect (socket/client.rs is not in
src/). Per sections 4.1/4.2 and 8, connect against an unreachable address
fails with NetworkError and ConnectionState remains as it was (Disconnected
stays Disconnected); connect against a reachable address opens the transport
and reaches Connected. -/
def SocketClient.connectModel (reachable : Bool) (st : ConnectionState) :
    Except SocketError Unit × ConnectionState :=
  if reachable then (Except.ok (), ConnectionState.Connected)
  else (Except.error SocketError.NetworkError, st)

/-- Modelled from the spec: the state gate inside SocketClient's send
(socket/client.rs is not in src/). Per invariant (4) of section 3 and
section 4.1, send succeeds in enqueuing only while ConnectionState is
Connected or Authenticated and otherwise fails with NotConnected without a
wire send being attempted. -/
def SocketClient.sendGate (st : ConnectionState) : Except SocketError Unit :=
  if st = ConnectionState.Connected ∨ st = ConnectionState.Authenticated then
    Except.ok ()
  else
    Except.error SocketError.NotConnected

/-! ## Configuration (src/config.rs) -/

/-- ScheduleConfig from config.rs. -/
structure ScheduleConfig where
  enabled : Bool
  days : List Nat
  start_time : String
  end_time : String
  timezone : String
deriving DecidableEq, Repr

/-- Config from config.rs (field for field). -/
structure Config where
  server_url : String
  auto_start : Bool
  screenshot_interval : Nat
  activity_log_interval : Nat
  keystroke_buffer_size : Nat
  heartbeat_interval : Nat
  process_interval : Nat
  clipboard_interval : Nat
  admin_password_hash : Option String
  schedule : Option ScheduleConfig
deriving DecidableEq, Repr

def default_screenshot_interval : Nat := 5000

def default_activity_log_interval : Nat := 10000

def default_keystroke_buffer_size : Nat := 100

def default_heartbeat_interval : Nat := 10000

def default_process_interval : Nat := 10000

def default_clipboard_interval : Nat := 2000

/-- Default for Config (impl Default for Config in config.rs). -/
def Config.defaultConfig : Config :=
  { server_url := ""
    auto_start := true
    screenshot_interval := default_screenshot_interval
    activity_log_interval := default_activity_log_interval
    keystroke_buffer_size := default_keystroke_buffer_size
    heartbeat_interval := default_heartbeat_interval
    process_interval := default_process_interval
    clipboard_interval := default_clipboard_interval
    admin_password_hash := none
    schedule := none }

/-- ServerConfig from config.rs: the server-pushed override received after
authentication. -/
structure ServerConfig where
  screenshot_interval : Option Nat
  activity_log_interval : Option Nat
  keystroke_buffer_size : Option Nat
deriving DecidableEq, Repr

/-- Config::update_from_server from config.rs: each override field, when
present, replaces the matching field in place. -/
def Config.update_from_server (c : Config) (sc : ServerConfig) : Config :=
  let c1 := match sc.screenshot_interval with
    | some interval => { c with screenshot_interval := interval }
    | none => c
  let c2 := match sc.activity_log_interval with
    | some interval => { c1 with activity_log_interval := interval }
    | none => c1
  match sc.keystroke_buffer_size with
    | some size => { c2 with keystroke_buffer_size := size }
    | none => c2

/-! ## Activity tracker (src/services/activity_tracker.rs) -/

/-- ActivityLogEntry from socket/events.rs as constructed by
activity_tracker.rs (timestamps and durations are u64 milliseconds). -/
structure ActivityLogEntry where
  application_name : String
  window_title : String
  start_time : Nat
  end_time : Nat
  duration : Nat
  category : Option String
deriving DecidableEq, Repr

/-- CurrentActivity from activity_tracker.rs. -/
structure CurrentActivity where
  application_name : String
  window_title : String
  start_time : Nat
  category : Option String
deriving DecidableEq, Repr

/-- Mutable state of the ActivityTracker that the claims touch: the
current_activity slot and the activity_buffer vector. -/
structure ATState where
  current_activity : Option CurrentActivity
  activity_buffer : List ActivityLogEntry
deriving DecidableEq, Repr

/-- Wrapping u64 subtraction, the semantics of `now - start_time` on u64 in a
release build. -/
def u64_wrapping_sub (a b : Nat) : Nat :=
  (a % 2 ^ 64 + (2 ^ 64 - b % 2 ^ 64)) % 2 ^ 64

/-- APP_CATEGORIES from activity_tracker.rs, as an association list in source
insertion order. The source uses a HashMap whose iteration order is
unspecified; no claim depends on which category wins when several keywords
match. -/
def APP_CATEGORIES : List (String × String) :=
  [("chrome", "BROWSER"), ("firefox", "BROWSER"), ("safari", "BROWSER"),
   ("edge", "BROWSER"), ("opera", "BROWSER"), ("brave", "BROWSER"),
   ("slack", "COMMUNICATION"), ("teams", "COMMUNICATION"),
   ("zoom", "COMMUNICATION"), ("discord", "COMMUNICATION"),
   ("skype", "COMMUNICATION"), ("outlook", "COMMUNICATION"),
   ("mail", "COMMUNICATION"), ("thunderbird", "COMMUNICATION"),
   ("word", "PRODUCTIVITY"), ("excel", "PRODUCTIVITY"),
   ("powerpoint", "PRODUCTIVITY"), ("pages", "PRODUCTIVITY"),
   ("numbers", "PRODUCTIVITY"), ("keynote", "PRODUCTIVITY"),
   ("notion", "PRODUCTIVITY"), ("evernote", "PRODUCTIVITY"),
   ("onenote", "PRODUCTIVITY"),
   ("code", "DEVELOPMENT"), ("vscode", "DEVELOPMENT"),
   ("visual studio", "DEVELOPMENT"), ("intellij", "DEVELOPMENT"),
   ("pycharm", "DEVELOPMENT"), ("webstorm", "DEVELOPMENT"),
   ("xcode", "DEVELOPMENT"), ("android studio", "DEVELOPMENT"),
   ("sublime", "DEVELOPMENT"), ("atom", "DEVELOPMENT"),
   ("terminal", "DEVELOPMENT"), ("iterm", "DEVELOPMENT"),
   ("powershell", "DEVELOPMENT"), ("cmd", "DEVELOPMENT"),
   ("spotify", "ENTERTAINMENT"), ("netflix", "ENTERTAINMENT"),
   ("youtube", "ENTERTAINMENT"), ("vlc", "ENTERTAINMENT"),
   ("music", "ENTERTAINMENT"),
   ("facebook", "SOCIAL"), ("twitter", "SOCIAL"), ("instagram", "SOCIAL"),
   ("linkedin", "SOCIAL"), ("reddit", "SOCIAL"),
   ("finder", "FILE_MANAGEMENT"), ("explorer", "FILE_MANAGEMENT"),
   ("files", "FILE_MANAGEMENT"),
   ("settings", "SYSTEM"), ("control panel", "SYSTEM"),
   ("system preferences", "SYSTEM")]

/-- ActivityTracker::categorize_app: first keyword contained in the lowercased
application name wins, default category OTHER. -/
def ActivityTracker.categorize_app (app_name : String) : Option String :=
  let lower_name := app_name.toLower
  match APP_CATEGORIES.find? (fun kc => lower_name.containsSubstr kc.fst) with
  | some kc => some kc.snd
  | none => some "OTHER"

/-- ActivityTracker::track_active_window. The active-window query result and
the clock read are parameters; the two timestamp() calls of one invocation are
modelled as the same instant. -/
def ActivityTracker.track_active_window (app_name window_title : String)
    (now : Nat) (s : ATState) : ATState :=
  match s.current_activity with
  | some current =>
    if current.application_name = app_name ∧ current.window_title = window_title then
      s
    else
      let duration := u64_wrapping_sub now current.start_time
      let buf :=
        if duration > 1000 then
          s.activity_buffer ++
            [{ application_name := current.application_name
               window_title := current.window_title
               start_time := current.start_time
               end_time := now
               duration := duration
               category := current.category }]
        else s.activity_buffer
      { current_activity := some
          { application_name := app_name
            window_title := window_title
            start_time := now
            category := ActivityTracker.categorize_app app_name }
        activity_buffer := buf }
  | none =>
      { current_activity := some
          { application_name := app_name
            window_title := window_title
            start_time := now
            category := ActivityTracker.categorize_app app_name }
        activity_buffer := s.activity_buffer }

/-- ActivityTracker::commit_current_activity: take() the current activity and
push it to the buffer when it lasted strictly more than 1000 ms. -/
def ActivityTracker.commit_current_activity (now : Nat) (s : ATState) : ATState :=
  match s.current_activity with
  | some current =>
    let duration := u64_wrapping_sub now current.start_time
    if duration > 1000 then
      { current_activity := none
        activity_buffer := s.activity_buffer ++
          [{ application_name := current.application_name
             window_title := current.window_title
             start_time := current.start_time
             end_time := now
             duration := duration
             category := current.category }] }
    else
      { current_activity := none, activity_buffer := s.activity_buffer }
  | none => s

/-- Result of one ActivityTracker::flush_buffer call: the buffer afterwards
and the batch handed to send_activity_logs, if any. -/
structure ATFlushResult where
  buffer : List ActivityLogEntry
  sent : Option (List ActivityLogEntry)
deriving DecidableEq, Repr

/-- ActivityTracker::flush_buffer: early return when the buffer is empty,
otherwise drain the whole buffer and hand it to send as one batch. The send
outcome (sendOk) only drives logging; the drained batch is never re-buffered.
The current_activity parameter of the source function is unused there. -/
def ActivityTracker.flush_buffer (sendOk : Bool) (buffer : List ActivityLogEntry) :
    ATFlushResult :=
  if buffer.isEmpty then { buffer := buffer, sent := none }
  else { buffer := [], sent := some buffer }

/-- Result of ActivityTracker::stop. -/
structure ATStopResult where
  is_running : Bool
  current_activity : Option CurrentActivity
  buffer : List ActivityLogEntry
  sent : Option (List ActivityLogEntry)
deriving DecidableEq, Repr

/-- ActivityTracker::stop: clear is_running, commit the current activity, then
flush the remaining buffer exactly once (the spawned tasks are then aborted). -/
def ActivityTracker.stop (sendOk : Bool) (now : Nat) (s : ATState) : ATStopResult :=
  let s1 := ActivityTracker.commit_current_activity now s
  let fr := ActivityTracker.flush_buffer sendOk s1.activity_buffer
  { is_running := false
    current_activity := s1.current_activity
    buffer := fr.buffer
    sent := fr.sent }

/-- Sleep period, in milliseconds, of the flush task spawned by
ActivityTracker::start: a fixed `Duration::from_secs(30)`. The tracker is
constructed from the socket alone (ActivityTracker::new takes no Config), so
no configuration value can reach this timer. -/
def ActivityTracker.flushSleepMs : Nat := 30000

/-! ## Keylogger (src/services/keylogger.rs) -/

/-- KeystrokeBuffer from keylogger.rs: one accumulated stroke. -/
structure KeystrokeBuffer where
  keys : String
  application_name : String
  window_title : String
  timestamp : Nat
deriving DecidableEq, Repr

/-- KeystrokeEntry from socket/events.rs as built by Keylogger::flush_buffer. -/
structure KeystrokeEntry where
  keys : String
  application_name : String
  window_title : String
  timestamp : Nat
deriving DecidableEq, Repr

/-- Conversion applied in Keylogger::flush_buffer. -/
def KeystrokeBuffer.toEntry (e : KeystrokeBuffer) : KeystrokeEntry :=
  { keys := e.keys
    application_name := e.application_name
    window_title := e.window_title
    timestamp := e.timestamp }

/-- The commit of the current stroke performed at the top of
Keylogger::flush_buffer: take() the stroke and push it onto the buffer unless
its keys are empty. -/
def Keylogger.strokeCommit (current : Option KeystrokeBuffer) : List KeystrokeBuffer :=
  match current with
  | some stroke => if stroke.keys = "" then [] else [stroke]
  | none => []

/-- Result of one Keylogger::flush_buffer call. -/
structure KLFlushResult where
  buffer : List KeystrokeBuffer
  current : Option KeystrokeBuffer
  sent : Option (List KeystrokeEntry)
deriving DecidableEq, Repr

/-- Keylogger::flush_buffer: commit the current stroke into the buffer, drain
the whole buffer, return early when nothing was drained, otherwise convert and
hand everything to send_keystrokes as one batch; the send outcome only drives
logging and the drained batch is never re-buffered. -/
def Keylogger.flush_buffer (sendOk : Bool) (buffer : List KeystrokeBuffer)
    (current : Option KeystrokeBuffer) : KLFlushResult :=
  let entries := buffer ++ Keylogger.strokeCommit current
  if entries.isEmpty then
    { buffer := [], current := none, sent := none }
  else
    { buffer := [], current := none, sent := some (entries.map KeystrokeBuffer.toEntry) }

/-- Result of Keylogger::stop. -/
structure KLStopResult where
  is_running : Bool
  buffer : List KeystrokeBuffer
  current : Option KeystrokeBuffer
  sent : Option (List KeystrokeEntry)
deriving DecidableEq, Repr

/-- Keylogger::stop: clear is_running and flush the remaining buffer exactly
once (the flush task is then aborted). -/
def Keylogger.stop (sendOk : Bool) (buffer : List KeystrokeBuffer)
    (current : Option KeystrokeBuffer) : KLStopResult :=
  let fr := Keylogger.flush_buffer sendOk buffer current
  { is_running := false
    buffer := fr.buffer
    current := fr.current
    sent := fr.sent }

/-! ## Process monitor and clipboard send paths
(src/services/process_monitor.rs, src/services/clipboard.rs) -/

/-- One iteration of the loop spawned by ProcessMonitor::start, reduced to
whether it hands the collected process list to socket.send_process_list. The
body breaks when is_running is false and otherwise sends unconditionally; the
ConnectionState parameter is listed to record that the loop never reads it. -/
def ProcessMonitor.sendAttempted (st : ConnectionState) (is_running : Bool) : Bool :=
  is_running

/-- Clipboard::check_clipboard, reduced to whether it hands the clipboard text
to socket.send_clipboard together with the updated last_content. A send is
attempted exactly when a text was read and it is non-empty and differs from
last_content; the ConnectionState parameter is listed to record that the
function never reads it. -/
def Clipboard.check_clipboard (st : ConnectionState) (text : Option String)
    (last_content : String) : Bool × String :=
  match text with
  | some t =>
    if t ≠ last_content ∧ t ≠ "" then (true, t) else (false, last_content)
  | none => (false, last_content)

/-! ## Service lifecycle (start guards) -/

/-- Observable lifecycle state of one monitoring service: its is_running flag
and how many background tasks/threads it has spawned in total. -/
structure ServiceState where
  is_running : Bool
  spawned : Nat
deriving DecidableEq, Repr

/-- ActivityTracker::start: early return when already running, otherwise set
is_running and spawn the tracking task and the flush task. -/
def ActivityTracker.start (s : ServiceState) : ServiceState :=
  if s.is_running then s
  else { is_running := true, spawned := s.spawned + 2 }

/-- Keylogger::start: early return when already running, otherwise set
is_running and spawn the listener thread, the processing task and the flush
task. -/
def Keylogger.start (s : ServiceState) : ServiceState :=
  if s.is_running then s
  else { is_running := true, spawned := s.spawned + 3 }

/-- Clipboard::start: early return when already running, otherwise set
is_running and spawn the monitor task. -/
def Clipboard.start (s : ServiceState) : ServiceState :=
  if s.is_running then s
  else { is_running := true, spawned := s.spawned + 1 }

/-- ProcessMonitor::start: early return when already running, otherwise set
is_running and spawn the monitor task. -/
def ProcessMonitor.start (s : ServiceState) : ServiceState :=
  if s.is_running then s
  else { is_running := true, spawned := s.spawned + 1 }

/-- ScreenCapture::start: early return when already capturing, otherwise set
is_capturing and spawn the capture task. -/
def ScreenCapture.start (s : ServiceState) : ServiceState :=
  if s.is_running then s
  else { is_running := true, spawned := s.spawned + 1 }

/-- Modelled from the spec: BlockingService::start (the BlockingService source
and services/mod.rs are not in src/). Section 6 requires every monitoring
service to expose idempotent start/stop lifecycle operations, so start is an
early return when already running. -/
def BlockingService.start (s : ServiceState) : ServiceState :=
  if s.is_running then s
  else { is_running := true, spawned := s.spawned + 1 }

/-! ## Commands service (src/services/commands.rs) -/

/-- Decoded optional argument map of a command payload, restricted to the keys
commands.rs actually reads (message, title, command, processId). -/
structure CmdArgs where
  message : Option String
  title : Option String
  command : Option String
  processId : Option Nat
deriving DecidableEq, Repr

/-- CommandPayload from socket/events.rs as consumed by commands.rs. -/
structure CommandPayload where
  id : String
  command : String
  payload : Option CmdArgs
deriving DecidableEq, Repr

/-- One outbound call to socket.send_command_response. -/
structure CommandResponse where
  id : String
  success : Bool
  output : Option String
  error : Option String
deriving DecidableEq, Repr

/-- Outcome of an OS process spawn (io::Result<Child>): ok, or the error
message. -/
structure SpawnResult where
  ok : Bool
  err : String
deriving DecidableEq, Repr

/-- Outcome of an OS process run to completion (io::Result<Output> plus the
captured status and streams). -/
structure ExecOutcome where
  ioOk : Bool
  ioErr : String
  statusOk : Bool
  exitCode : Option Int
  stdout : String
  stderr : String
deriving DecidableEq, Repr

/-- Results of the OS-level operations execute_command can reach; each is an
input because the embedding does not run processes. -/
structure OsWorld where
  lockSpawn : SpawnResult
  shutdownSpawn : SpawnResult
  restartSpawn : SpawnResult
  logoffSpawn : SpawnResult
  sleepSpawn : SpawnResult
  messageSpawn : SpawnResult
  execRun : ExecOutcome
  killRun : ExecOutcome
deriving DecidableEq, Repr

/-- Commands::lock_screen: the platform lock spawn succeeded means
(true, Some("Screen locked"), None). -/
def Commands.lock_screen (r : SpawnResult) : Bool × Option String × Option String :=
  if r.ok then (true, some "Screen locked", none)
  else (false, none, some ("Failed to lock screen: " ++ r.err))

/-- Commands::shutdown. -/
def Commands.shutdown (r : SpawnResult) : Bool × Option String × Option String :=
  if r.ok then (true, some "Shutdown initiated", none)
  else (false, none, some ("Failed to shutdown: " ++ r.err))

/-- Commands::restart. -/
def Commands.restart (r : SpawnResult) : Bool × Option String × Option String :=
  if r.ok then (true, some "Restart initiated", none)
  else (false, none, some ("Failed to restart: " ++ r.err))

/-- Commands::logoff. -/
def Commands.logoff (r : SpawnResult) : Bool × Option String × Option String :=
  if r.ok then (true, some "Logoff initiated", none)
  else (false, none, some ("Failed to logoff: " ++ r.err))

/-- Commands::sleep. -/
def Commands.sleep (r : SpawnResult) : Bool × Option String × Option String :=
  if r.ok then (true, some "Sleep initiated", none)
  else (false, none, some ("Failed to sleep: " ++ r.err))

/-- Commands::show_message (the title/message strings only feed the spawned
dialog, not the response text). -/
def Commands.show_message (r : SpawnResult) (title message : String) :
    Bool × Option String × Option String :=
  if r.ok then (true, some "Message displayed", none)
  else (false, none, some ("Failed to show message: " ++ r.err))

/-- Rendering of `{:?}` on Option<i32> used in execute_system_command's
failure message. -/
def formatExitCode (code : Option Int) : String :=
  match code with
  | some n => "Some(" ++ toString n ++ ")"
  | none => "None"

/-- Commands::execute_system_command. -/
def Commands.execute_system_command (r : ExecOutcome) (command : String) :
    Bool × Option String × Option String :=
  if r.ioOk then
    if r.statusOk then
      (true,
       some (if r.stdout = "" then "Command executed successfully" else r.stdout),
       none)
    else
      (false, some r.stdout,
       some (if r.stderr = "" then
               "Command failed with exit code: " ++ formatExitCode r.exitCode
             else r.stderr))
  else (false, none, some ("Failed to execute command: " ++ r.ioErr))

/-- Commands::kill_process. -/
def Commands.kill_process (r : ExecOutcome) (pid : Nat) :
    Bool × Option String × Option String :=
  if r.ioOk then
    if r.statusOk then
      (true, some ("Process " ++ toString pid ++ " terminated"), none)
    else
      (false, none, some ("Failed to kill process: " ++ r.stderr))
  else (false, none, some ("Failed to kill process: " ++ r.ioErr))

/-- Commands::execute_command: dispatch on the command name, then call
socket.send_command_response exactly once with the triple produced by the
selected branch. The returned list is the sequence of responses sent for this
inbound command event. -/
def Commands.execute_command (w : OsWorld) (data : CommandPayload) :
    List CommandResponse :=
  let r : Bool × Option String × Option String :=
    match data.command with
    | "LOCK" => Commands.lock_screen w.lockSpawn
    | "UNLOCK" =>
        (true, some "Unlock command received (requires user interaction)", none)
    | "SHUTDOWN" => Commands.shutdown w.shutdownSpawn
    | "RESTART" => Commands.restart w.restartSpawn
    | "LOGOFF" => Commands.logoff w.logoffSpawn
    | "SLEEP" => Commands.sleep w.sleepSpawn
    | "MESSAGE" =>
        let message := (data.payload.bind (fun p => p.message)).getD "No message"
        let title := (data.payload.bind (fun p => p.title)).getD "Message"
        Commands.show_message w.messageSpawn title message
    | "EXECUTE" =>
        match data.payload.bind (fun p => p.command) with
        | some c => Commands.execute_system_command w.execRun c
        | none => (false, none, some "No command provided")
    | "KILL_PROCESS" =>
        match data.payload.bind (fun p => p.processId) with
        | some p => Commands.kill_process w.killRun p
        | none => (false, none, some "No process ID provided")
    | other => (false, none, some ("Unknown command: " ++ other))
  [{ id := data.id, success := r.fst, output := r.snd.fst, error := r.snd.snd }]

/-! ## Agent runtime loop (src/main.rs, run_agent) -/

/-- Observation of one run_agent execution: how many times socket.connect was
invoked and whether run_agent returned early on the initial connect failure. -/
structure AgentRun where
  connectCalls : Nat
  returnedEarly : Bool
deriving DecidableEq, Repr

/-- Connect invocations made by run_agent's supervision loop during its first
`steps` one-second iterations: the loop re-invokes connect in exactly the
iterations whose is_connected check (connUp) is false. -/
def run_agent_loopConnects (connUp : Nat → Bool) : Nat → Nat
  | 0 => 0
  | n + 1 => run_agent_loopConnects connUp n + (if connUp n then 0 else 1)

/-- run_agent's connect behaviour: the initial socket.connect is invoked once;
if it fails run_agent shows an error and returns (no supervision loop is ever
entered); if it succeeds the supervision loop runs and re-invokes connect per
run_agent_loopConnects, never returning on connect failure. -/
def run_agent (firstConnectOk : Bool) (connUp : Nat → Bool) (steps : Nat) :
    AgentRun :=
  if firstConnectOk then
    { connectCalls := 1 + run_agent_loopConnects connUp steps
      returnedEarly := false }
  else
    { connectCalls := 1, returnedEarly := true }

/-! ## Auxiliary definitions for the claims -/

/-- Every entry of the list records a measured duration strictly above
1000 ms. -/
def durationsExceedOneSecond (l : List ActivityLogEntry) : Prop :=
  ∀ e ∈ l, 1000 < e.duration

/-- Activity buffer left after a history of flush rounds, each round appending
some records and then flushing with some send outcome, starting from an empty
buffer. -/
def ActivityTracker.flushRounds
    (hist : List (Bool × List ActivityLogEntry)) : List ActivityLogEntry :=
  hist.foldl
    (fun buf round => (ActivityTracker.flush_buffer round.fst (buf ++ round.snd)).buffer)
    []

/-- Concrete activity-log record used to instantiate theorems. -/
def sampleEntry : ActivityLogEntry :=
  { application_name := "chrome"
    window_title := "tab"
    start_time := 0
    end_time := 2000
    duration := 2000
    category := some "BROWSER" }

/-- Concrete keystroke record used to instantiate theorems. -/
def sampleStroke : KeystrokeBuffer :=
  { keys := "abc", application_name := "app", window_title := "win", timestamp := 5 }

/-- Concrete OS outcomes where every operation succeeds. -/
def sampleOsWorld : OsWorld :=
  { lockSpawn := { ok := true, err := "" }
    shutdownSpawn := { ok := true, err := "" }
    restartSpawn := { ok := true, err := "" }
    logoffSpawn := { ok := true, err := "" }
    sleepSpawn := { ok := true, err := "" }
    messageSpawn := { ok := true, err := "" }
    execRun := { ioOk := true, ioErr := "", statusOk := true, exitCode := some 0,
                 stdout := "", stderr := "" }
    killRun := { ioOk := true, ioErr := "", statusOk := true, exitCode := some 0,
                 stdout := "", stderr := "" } }

/-- The inbound command event of the spec's LOCK scenario. -/
def sampleLockCommand : CommandPayload :=
  { id := "abc123", command := "LOCK", payload := none }

/-! ## Helper lemmas -/

theorem flush_buffer_leaves_empty (sendOk : Bool) (buffer : List ActivityLogEntry) :
    (ActivityTracker.flush_buffer sendOk buffer).buffer = [] := by
  unfold ActivityTracker.flush_buffer
  split
  · next h => simpa [List.isEmpty_iff] using h
  · rfl

theorem flush_buffer_nonempty (sendOk : Bool) (buffer : List ActivityLogEntry)
    (h : buffer ≠ []) :
    ActivityTracker.flush_buffer sendOk buffer = { buffer := [], sent := some buffer } := by
  unfold ActivityTracker.flush_buffer
  simp [List.isEmpty_iff, h]

theorem kl_flush_buffer_eq (sendOk : Bool) (buffer : List KeystrokeBuffer)
    (current : Option KeystrokeBuffer) :
    Keylogger.flush_buffer sendOk buffer current =
      { buffer := [], current := none,
        sent :=
          if buffer ++ Keylogger.strokeCommit current = [] then none
          else some ((buffer ++ Keylogger.strokeCommit current).map KeystrokeBuffer.toEntry) } := by
  unfold Keylogger.flush_buffer
  by_cases h : buffer ++ Keylogger.strokeCommit current = [] <;>
    simp [List.isEmpty_iff, h]

theorem commit_clears_current (now : Nat) (s : ATState) :
    (ActivityTracker.commit_current_activity now s).current_activity = none := by
  unfold ActivityTracker.commit_current_activity
  cases hc : s.current_activity with
  | none => simpa using hc
  | some cur =>
    dsimp only
    split <;> rfl

/-! ## Claim theorems -/

/-- C1 counterexample: with ConnectionState Disconnected, the process-monitor
loop iteration still hands the process list to send, and the clipboard watcher
still hands a changed non-empty clipboard text to send — the services do not
read the connection state before attempting a send, contrary to the claim. -/
theorem C1_counterexample_send_attempted_while_disconnected :
    ProcessMonitor.sendAttempted ConnectionState.Disconnected true = true ∧
    (Clipboard.check_clipboard ConnectionState.Disconnected (some "hello") "").fst = true := by
  constructor
  · rfl
  · decide

/-- C1 amended: the process-monitor loop and the clipboard watcher never read
ConnectionState — their send decision is independent of it (the monitor sends
whenever running, the clipboard whenever the text changed and is non-empty) —
and the no-send-outside-{Connected, Authenticated} invariant is enforced
inside SocketClient's send gate (modelled from the spec), which succeeds
exactly in the states Connected and Authenticated. -/
theorem C1_amended_socket_send_gate :
    (∀ (st : ConnectionState) (is_running : Bool),
       ProcessMonitor.sendAttempted st is_running = is_running) ∧
    (∀ (st : ConnectionState) (text : Option String) (last_content : String),
       Clipboard.check_clipboard st text last_content =
         Clipboard.check_clipboard ConnectionState.Authenticated text last_content) ∧
    (∀ st : ConnectionState,
       SocketClient.sendGate st = Except.ok () ↔
         (st = ConnectionState.Connected ∨ st = ConnectionState.Authenticated)) := by
  refine ⟨fun st r => rfl, fun st text last => rfl, fun st => ?_⟩
  cases st <;> simp [SocketClient.sendGate]

/-- C1 witness: the modelled send gate accepts in the Connected state. -/
theorem C1_amended_socket_send_gate_witness :
    SocketClient.sendGate ConnectionState.Connected = Except.ok () :=
  (C1_amended_socket_send_gate.2.2 ConnectionState.Connected).mpr (Or.inl rfl)

/-- C2 counterexample: against an always-unreachable address the initial
connect fails and run_agent returns at once — after 1000 supervisor periods
connect has been invoked exactly once and the agent has stopped, so connect is
not retried indefinitely as the claim states. -/
theorem C2_counterexample_initial_failure_stops_agent :
    run_agent false (fun _ => false) 1000 =
      { connectCalls := 1, returnedEarly := true } := rfl

/-- C2 amended: connect against an unreachable address returns NetworkError
and leaves ConnectionState Disconnected (socket client modelled from the
spec); if the agent's INITIAL connect fails, run_agent reports the error and
returns without retrying; only after a successful initial connect does the
supervision loop retry connect — once per one-second iteration that finds the
connection down — indefinitely and without returning. -/
theorem C2_amended_reconnect_only_after_initial_success :
    (∀ (connUp : Nat → Bool) (steps : Nat),
       run_agent false connUp steps = { connectCalls := 1, returnedEarly := true }) ∧
    (∀ steps : Nat,
       run_agent true (fun _ => false) steps =
         { connectCalls := 1 + steps, returnedEarly := false }) ∧
    SocketClient.connectModel false ConnectionState.Disconnected =
      (Except.error SocketError.NetworkError, ConnectionState.Disconnected) := by
  refine ⟨fun connUp steps => rfl, fun steps => ?_, rfl⟩
  have h : ∀ n : Nat, run_agent_loopConnects (fun _ => false) n = n := by
    intro n
    induction n with
    | zero => rfl
    | succ k ih => simp [run_agent_loopConnects, ih]
  simp [run_agent, h]

/-- C3: a flush that finds n > 0 buffered records hands exactly one batch
holding all of them in append order to send and leaves the buffer empty; a
flush that finds nothing buffered performs no send. For the keylogger the
buffered records are the buffer vector plus the committed current stroke,
which the flush itself moves into the buffer before draining. -/
theorem C3_flush_sends_one_full_batch :
    (∀ (sendOk : Bool) (buffer : List ActivityLogEntry), buffer ≠ [] →
       ActivityTracker.flush_buffer sendOk buffer =
         { buffer := [], sent := some buffer }) ∧
    (∀ sendOk : Bool,
       ActivityTracker.flush_buffer sendOk [] = { buffer := [], sent := none }) ∧
    (∀ (sendOk : Bool) (buffer : List KeystrokeBuffer)
       (current : Option KeystrokeBuffer),
       buffer ++ Keylogger.strokeCommit current ≠ [] →
       Keylogger.flush_buffer sendOk buffer current =
         { buffer := [], current := none,
           sent := some ((buffer ++ Keylogger.strokeCommit current).map
             KeystrokeBuffer.toEntry) }) ∧
    (∀ (sendOk : Bool) (buffer : List KeystrokeBuffer)
       (current : Option KeystrokeBuffer),
       buffer ++ Keylogger.strokeCommit current = [] →
       Keylogger.flush_buffer sendOk buffer current =
         { buffer := [], current := none, sent := none }) := by
  refine ⟨fun sendOk buffer h => flush_buffer_nonempty sendOk buffer h,
          fun sendOk => rfl,
          fun sendOk buffer current h => ?_,
          fun sendOk buffer current h => ?_⟩
  · rw [kl_flush_buffer_eq]
    simp [h]
  · rw [kl_flush_buffer_eq]
    simp [h]

/-- C3 witness: a one-record activity buffer is flushed as one batch of that
record; a keylogger flush with one buffered stroke and no current stroke sends
exactly that stroke. -/
theorem C3_flush_sends_one_full_batch_witness :
    ActivityTracker.flush_buffer true [sampleEntry] =
      { buffer := [], sent := some [sampleEntry] } ∧
    Keylogger.flush_buffer true [sampleStroke] none =
      { buffer := [], current := none,
        sent := some [sampleStroke.toEntry] } := by
  constructor
  · exact C3_flush_sends_one_full_batch.1 true [sampleEntry] (by simp)
  · have h := C3_flush_sends_one_full_batch.2.2.1 true [sampleStroke] none
      (by simp [Keylogger.strokeCommit])
    simpa [Keylogger.strokeCommit] using h

/-- C4: a flush is total (never throws) and leaves the buffer empty whatever
the send outcome — the drained batch is never re-buffered — so the flush
result does not depend on the send outcome at all, the buffer left by any
history of (append, flush) rounds is empty, and the buffer length after a
flush is exactly the number of records appended since it. -/
theorem C4_failed_flush_discards_batch :
    (∀ (sendOk : Bool) (buffer : List ActivityLogEntry),
       (ActivityTracker.flush_buffer sendOk buffer).buffer = []) ∧
    (∀ (ok1 ok2 : Bool) (buffer : List ActivityLogEntry),
       ActivityTracker.flush_buffer ok1 buffer = ActivityTracker.flush_buffer ok2 buffer) ∧
    (∀ hist : List (Bool × List ActivityLogEntry),
       ActivityTracker.flushRounds hist = []) ∧
    (∀ (hist : List (Bool × List ActivityLogEntry))
       (later : List ActivityLogEntry),
       (ActivityTracker.flushRounds hist ++ later).length = later.length) ∧
    (∀ (sendOk : Bool) (buffer : List KeystrokeBuffer)
       (current : Option KeystrokeBuffer),
       (Keylogger.flush_buffer sendOk buffer current).buffer = [] ∧
       (Keylogger.flush_buffer sendOk buffer current).current = none) ∧
    (∀ (ok1 ok2 : Bool) (buffer : List KeystrokeBuffer)
       (current : Option KeystrokeBuffer),
       Keylogger.flush_buffer ok1 buffer current =
         Keylogger.flush_buffer ok2 buffer current) := by
  have hrounds : ∀ hist : List (Bool × List ActivityLogEntry),
      ActivityTracker.flushRounds hist = [] := by
    intro hist
    unfold ActivityTracker.flushRounds
    induction hist with
    | nil => rfl
    | cons round rest ih =>
      rw [List.foldl_cons, flush_buffer_leaves_empty]
      exact ih
  refine ⟨flush_buffer_leaves_empty, fun ok1 ok2 buffer => rfl, hrounds,
          fun hist later => by rw [hrounds hist]; rfl,
          fun sendOk buffer current => ?_,
          fun ok1 ok2 buffer current => rfl⟩
  rw [kl_flush_buffer_eq]
  constructor <;> rfl

/-- C5: starting an already-running monitoring service is a no-op (same state,
no additional task spawned), and start is idempotent — so the auth-success
handler re-running all starts after a reconnect cannot double-start a running
service. BlockingService is modelled from the spec; the other five are
embedded from their sources. -/
theorem C5_start_idempotent :
    (∀ s : ServiceState, s.is_running = true → ActivityTracker.start s = s) ∧
    (∀ s : ServiceState, ActivityTracker.start (ActivityTracker.start s) =
       ActivityTracker.start s) ∧
    (∀ s : ServiceState, s.is_running = true → Keylogger.start s = s) ∧
    (∀ s : ServiceState, Keylogger.start (Keylogger.start s) = Keylogger.start s) ∧
    (∀ s : ServiceState, s.is_running = true → Clipboard.start s = s) ∧
    (∀ s : ServiceState, Clipboard.start (Clipboard.start s) = Clipboard.start s) ∧
    (∀ s : ServiceState, s.is_running = true → ProcessMonitor.start s = s) ∧
    (∀ s : ServiceState, ProcessMonitor.start (ProcessMonitor.start s) =
       ProcessMonitor.start s) ∧
    (∀ s : ServiceState, s.is_running = true → ScreenCapture.start s = s) ∧
    (∀ s : ServiceState, ScreenCapture.start (ScreenCapture.start s) =
       ScreenCapture.start s) ∧
    (∀ s : ServiceState, s.is_running = true → BlockingService.start s = s) ∧
    (∀ s : ServiceState, BlockingService.start (BlockingService.start s) =
       BlockingService.start s) := by
  refine ⟨fun s h => ?_, fun s => ?_, fun s h => ?_, fun s => ?_, fun s h => ?_,
          fun s => ?_, fun s h => ?_, fun s => ?_, fun s h => ?_, fun s => ?_,
          fun s h => ?_, fun s => ?_⟩ <;>
    simp [ActivityTracker.start, Keylogger.start, Clipboard.start,
          ProcessMonitor.start, ScreenCapture.start, BlockingService.start, *] <;>
    split <;> simp_all

/-- C5 witness: starting an already-running tracker (and keylogger) with two
spawned tasks changes nothing. -/
theorem C5_start_idempotent_witness :
    ActivityTracker.start { is_running := true, spawned := 2 } =
      { is_running := true, spawned := 2 } ∧
    Keylogger.start { is_running := true, spawned := 3 } =
      { is_running := true, spawned := 3 } ∧
    Clipboard.start { is_running := true, spawned := 1 } =
      { is_running := true, spawned := 1 } ∧
    ProcessMonitor.start { is_running := true, spawned := 1 } =
      { is_running := true, spawned := 1 } ∧
    ScreenCapture.start { is_running := true, spawned := 1 } =
      { is_running := true, spawned := 1 } ∧
    BlockingService.start { is_running := true, spawned := 1 } =
      { is_running := true, spawned := 1 } :=
  ⟨C5_start_idempotent.1 _ rfl,
   C5_start_idempotent.2.2.1 _ rfl,
   C5_start_idempotent.2.2.2.2.1 _ rfl,
   C5_start_idempotent.2.2.2.2.2.2.1 _ rfl,
   C5_start_idempotent.2.2.2.2.2.2.2.2.1 _ rfl,
   C5_start_idempotent.2.2.2.2.2.2.2.2.2.2.1 _ rfl⟩

/-- C6: stopping a batching service clears is_running, performs the single
final drain, and leaves the buffer (and the staged current record) empty
afterwards, whatever the send outcome; everything pending goes out as the one
final batch when there is anything pending. -/
theorem C6_stop_final_drain_empties_buffer :
    (∀ (sendOk : Bool) (now : Nat) (s : ATState),
       (ActivityTracker.stop sendOk now s).is_running = false ∧
       (ActivityTracker.stop sendOk now s).buffer = [] ∧
       (ActivityTracker.stop sendOk now s).current_activity = none ∧
       (ActivityTracker.stop sendOk now s).sent =
         (if (ActivityTracker.commit_current_activity now s).activity_buffer = []
          then none
          else some (ActivityTracker.commit_current_activity now s).activity_buffer) ∧
       ActivityTracker.stop sendOk now s = ActivityTracker.stop (!sendOk) now s) ∧
    (∀ (sendOk : Bool) (buffer : List KeystrokeBuffer)
       (current : Option KeystrokeBuffer),
       (Keylogger.stop sendOk buffer current).is_running = false ∧
       (Keylogger.stop sendOk buffer current).buffer = [] ∧
       (Keylogger.stop sendOk buffer current).current = none ∧
       (Keylogger.stop sendOk buffer current).sent =
         (if buffer ++ Keylogger.strokeCommit current = [] then none
          else some ((buffer ++ Keylogger.strokeCommit current).map
            KeystrokeBuffer.toEntry)) ∧
       Keylogger.stop sendOk buffer current = Keylogger.stop (!sendOk) buffer current) := by
  constructor
  · intro sendOk now s
    refine ⟨rfl, flush_buffer_leaves_empty _ _, commit_clears_current now s, ?_, rfl⟩
    unfold ActivityTracker.stop
    dsimp only
    by_cases h : (ActivityTracker.commit_current_activity now s).activity_buffer = []
    · simp [h, ActivityTracker.flush_buffer]
    · simp [h, flush_buffer_nonempty sendOk _ h]
  · intro sendOk buffer current
    unfold Keylogger.stop
    simp only [kl_flush_buffer_eq]
    by_cases h : buffer ++ Keylogger.strokeCommit current = [] <;> simp [h]

/-- C7: an inbound command event with id abc123 and name LOCK whose platform
lock spawn succeeds produces exactly one response, carrying that id,
success = true, output Screen locked and no error. -/
theorem C7_lock_command_single_response :
    ∀ (w : OsWorld) (data : CommandPayload),
      data.command = "LOCK" → w.lockSpawn.ok = true →
      Commands.execute_command w data =
        [{ id := data.id, success := true,
           output := some "Screen locked", error := none }] := by
  intro w data hcmd hok
  unfold Commands.execute_command
  rw [hcmd]
  simp [Commands.lock_screen, hok]

/-- C7 witness: the spec's scenario — id abc123, command LOCK, lock succeeds —
yields the single response (abc123, true, Screen locked, none). -/
theorem C7_lock_command_single_response_witness :
    Commands.execute_command sampleOsWorld sampleLockCommand =
      [{ id := "abc123", success := true,
         output := some "Screen locked", error := none }] :=
  C7_lock_command_single_response sampleOsWorld sampleLockCommand rfl rfl

/-- C8 (code bug): the flush task spawned by ActivityTracker::start sleeps a
fixed 30000 ms, while the configuration's activity-log interval field — the
value the claim and config.rs's own field documentation designate as the flush
interval — defaults to 10000 ms and is never read by the service (the tracker
is constructed without access to the Config). -/
theorem C8_flush_period_constant_ignores_config :
    ActivityTracker.flushSleepMs = 30000 ∧
    Config.defaultConfig.activity_log_interval = 10000 ∧
    ActivityTracker.flushSleepMs ≠ Config.defaultConfig.activity_log_interval := by
  refine ⟨rfl, rfl, by decide⟩

/-- C9: update_from_server replaces exactly the fields carried by the
server-pushed override — each of the three overridable fields becomes the
pushed value when present and is unchanged when absent — and every other
configuration field is unchanged. -/
theorem C9_update_from_server_frame :
    ∀ (c : Config) (sc : ServerConfig),
      (c.update_from_server sc).server_url = c.server_url ∧
      (c.update_from_server sc).auto_start = c.auto_start ∧
      (c.update_from_server sc).heartbeat_interval = c.heartbeat_interval ∧
      (c.update_from_server sc).process_interval = c.process_interval ∧
      (c.update_from_server sc).clipboard_interval = c.clipboard_interval ∧
      (c.update_from_server sc).admin_password_hash = c.admin_password_hash ∧
      (c.update_from_server sc).schedule = c.schedule ∧
      (c.update_from_server sc).screenshot_interval =
        sc.screenshot_interval.getD c.screenshot_interval ∧
      (c.update_from_server sc).activity_log_interval =
        sc.activity_log_interval.getD c.activity_log_interval ∧
      (c.update_from_server sc).keystroke_buffer_size =
        sc.keystroke_buffer_size.getD c.keystroke_buffer_size := by
  intro c sc
  obtain ⟨a, b, k⟩ := sc
  cases a <;> cases b <;> cases k <;>
    simp [Config.update_from_server, Option.getD]

/-- C10: an activity interval is pushed into the buffer only when its measured
duration exceeds 1000 ms — by the window-change path, by the final commit, and
hence every record of every flushed batch (including the one sent by stop) has
duration strictly above 1000 ms. -/
theorem C10_buffered_durations_exceed_one_second :
    (∀ (app_name window_title : String) (now : Nat) (s : ATState),
       durationsExceedOneSecond s.activity_buffer →
       durationsExceedOneSecond
         (ActivityTracker.track_active_window app_name window_title now s).activity_buffer) ∧
    (∀ (now : Nat) (s : ATState),
       durationsExceedOneSecond s.activity_buffer →
       durationsExceedOneSecond
         (ActivityTracker.commit_current_activity now s).activity_buffer) ∧
    (∀ (sendOk : Bool) (buffer batch : List ActivityLogEntry),
       durationsExceedOneSecond buffer →
       (ActivityTracker.flush_buffer sendOk buffer).sent = some batch →
       durationsExceedOneSecond batch) ∧
    (∀ (sendOk : Bool) (now : Nat) (s : ATState)
       (batch : List ActivityLogEntry),
       durationsExceedOneSecond s.activity_buffer →
       (ActivityTracker.stop sendOk now s).sent = some batch →
       durationsExceedOneSecond batch) := by
  have hcommit : ∀ (now : Nat) (s : ATState),
      durationsExceedOneSecond s.activity_buffer →
      durationsExceedOneSecond
        (ActivityTracker.commit_current_activity now s).activity_buffer := by
    intro now s h
    unfold ActivityTracker.commit_current_activity
    cases s.current_activity with
    | none => exact h
    | some cur =>
      dsimp only
      split
      · next hgt =>
        intro e he
        rcases List.mem_append.mp he with hin | hin
        · exact h e hin
        · simp only [List.mem_singleton] at hin
          subst hin
          exact hgt
      · exact h
  have hflush : ∀ (sendOk : Bool) (buffer batch : List ActivityLogEntry),
      durationsExceedOneSecond buffer →
      (ActivityTracker.flush_buffer sendOk buffer).sent = some batch →
      durationsExceedOneSecond batch := by
    intro sendOk buffer batch h hsent
    unfold ActivityTracker.flush_buffer at hsent
    split at hsent
    · simp at hsent
    · simp only at hsent
      injection hsent with hb
      subst hb
      exact h
  refine ⟨?_, hcommit, hflush, ?_⟩
  · intro app_name window_title now s h
    unfold ActivityTracker.track_active_window
    cases s.current_activity with
    | none => exact h
    | some cur =>
      dsimp only
      split
      · exact h
      · dsimp only
        split
        · next hgt =>
          intro e he
          rcases List.mem_append.mp he with hin | hin
          · exact h e hin
          · simp only [List.mem_singleton] at hin
            subst hin
            exact hgt
        · exact h
  · intro sendOk now s batch h hsent
    exact hflush sendOk _ batch (hcommit now s h) hsent

/-- C10 witness: a window change measured at 5000 ms after the current
activity started leaves a buffer whose every record has duration above
1000 ms. -/
theorem C10_buffered_durations_witness :
    durationsExceedOneSecond
      (ActivityTracker.track_active_window "code" "main.rs" 5000
        { current_activity := some
            { application_name := "chrome", window_title := "tab",
              start_time := 0, category := some "BROWSER" }
          activity_buffer := [] }).activity_buffer :=
  C10_buffered_durations_exceed_one_second.1 "code" "main.rs" 5000 _
    (by intro e he; simp at he)

end NetWatch
